import Mathlib

/-!
Shallow embedding of `examples/safe_robot_test.py` from the rtde_ur
repository, together with proofs about the claims of its specification.

Real-valued joint measures are modelled by `ℚ`; external effects
(network connect/disconnect, recipe setup, telemetry receive, send,
sleeps, the interactive prompt) are modelled by an explicit environment
oracle `Env`, and each run of the orchestrator produces an outcome plus a
trace of the external calls it performed, in order.
-/

deriving instance DecidableEq for Except

/-- Kinds of Python exceptions relevant to the script's handlers:
`KeyboardInterrupt` (not an `Exception` subclass), `ValueError` whose
message contains `already in use`, any other `ValueError`, an
`AttributeError` (from dereferencing a `None` telemetry sample), and any
other `Exception`. -/

inductive Ex
  | kbInterrupt
  | valueAlreadyInUse
  | valueOther
  | attrError
  | excOther
deriving DecidableEq

/-- One telemetry sample, mirroring the fields of the `state` recipe
(`actual_q`, `actual_qd`, `target_q`, `robot_mode`, `safety_mode`). -/

structure Sample where
  actual_q : List ℚ
  actual_qd : List ℚ
  target_q : List ℚ
  robot_mode : Int
  safety_mode : Int
deriving DecidableEq

/-- A result of one `con.receive()` call: a sample, `None`, or a raised
exception (e.g. Ctrl+C delivered while blocked in the receive). -/

inductive RecvR
  | got (s : Sample)
  | nothing
  | raised (e : Ex)
deriving DecidableEq

/-- Observable external calls made by the script, in program order. -/

inductive Ev
  | connectEv
  | versionEv
  | outSetupEv
  | inSetupEv
  | disconnectEv
  | sleepEv (seconds : ℚ)
  | startEv
  | receiveEv
  | sendEv (target : List ℚ)
  | pauseEv
  | cleanupEv
deriving DecidableEq

/-- `MAX_JOINT_MOVEMENT = 0.05` (line 38). -/

def MAX_JOINT_MOVEMENT : ℚ := mkRat 5 100

/-- `MOVEMENT_TIMEOUT = 10.0` (line 41). -/

def MOVEMENT_TIMEOUT : ℚ := 10

/-- `SMALL_MOVEMENT_OFFSET = 0.03` (line 44). -/

def SMALL_MOVEMENT_OFFSET : ℚ := mkRat 3 100

/-- The stillness threshold `0.001` of `wait_for_move_completion`
(line 102). -/

def stillness : ℚ := mkRat 1 1000

/-- Structured form of the `(bool, str)` message returned by
`validate_joint_position`: success, the dimension-error message
`Invalid position dimensions` (which carries no joint index or
magnitude), or the per-joint message `Joint i movement too large: d`. -/

inductive ValRes
  | ok
  | dimErr
  | jointErr (i : ℕ) (delta : ℚ)
deriving DecidableEq

/-- Rational addition written through `mkRat` so that it evaluates by
kernel reduction (the library's `Rat.add` is irreducible); proven equal
to `+` below. -/

def radd (a b : ℚ) : ℚ :=
  mkRat (a.num * (b.den : ℤ) + b.num * (a.den : ℤ)) (a.den * b.den)

/-- Rational subtraction written through `mkRat`; proven equal to `-`
below. -/

def rsub (a b : ℚ) : ℚ :=
  mkRat (a.num * (b.den : ℤ) - b.num * (a.den : ℤ)) (a.den * b.den)

/-- Rational negation written through `mkRat`; proven equal to `-·`
below. -/

def rneg (a : ℚ) : ℚ := mkRat (-a.num) a.den

/-- Python's `abs` on a rational value. -/

def rabs (x : ℚ) : ℚ := if x < 0 then rneg x else x

/-- Python's binary `max` on rational values. -/

def rmax (a b : ℚ) : ℚ := if a < b then b else a

/-- The `for i, (curr, targ) in enumerate(zip(current_pos, target_pos))`
loop of `validate_joint_position` (lines 65-70): returns at the first
joint whose absolute delta exceeds `maxd`. -/

def checkJoints (maxd : ℚ) : ℕ → List ℚ → List ℚ → Bool × ValRes
  | _, [], _ => (true, .ok)
  | _, _ :: _, [] => (true, .ok)
  | i, c :: cs, t :: ts =>
    if rabs (rsub t c) > maxd then (false, .jointErr i (rabs (rsub t c)))
    else checkJoints maxd (i + 1) cs ts

/-- `validate_joint_position(current_pos, target_pos, max_delta)`
(lines 50-70): dimension check first, then the per-joint delta loop. -/

def validate_joint_position (current_pos target_pos : List ℚ) (max_delta : ℚ) :
    Bool × ValRes :=
  if current_pos.length ≠ 6 ∨ target_pos.length ≠ 6 then (false, .dimErr)
  else checkJoints max_delta 0 current_pos target_pos

/-- `max([abs(v) for v in qd])` for the nonempty list `v :: vs`. -/

def maxAbsVel (v : ℚ) (vs : List ℚ) : ℚ :=
  vs.foldl (fun m x => rmax m (rabs x)) (rabs v)

/-- The body of the velocity check of `wait_for_move_completion`
(lines 101-103): Python's `max` raises `ValueError` on an empty vector;
otherwise the sample is still iff the maximum absolute joint velocity is
strictly below `stillness`. -/

def sampleStill (s : Sample) : Except Ex Bool :=
  match s.actual_qd with
  | [] => .error .excOther
  | v :: vs => .ok (decide (maxAbsVel v vs < stillness))

/-- The polling loop of `wait_for_move_completion` (lines 93-108).
`recv n` is the result of the `n`-th `con.receive()` of the whole run,
`times k` the elapsed wall-clock time at the `k`-th loop-condition
check, `base` the number of receives performed before this call, and
`fuel` a bound on the modelled loop iterations (`none` = the bound was
too small to determine the result).  Returns the Python result
(`true` = completed, `false` = timeout or missing sample, or a
propagating exception) together with the number of receives consumed. -/

def waitGo (recv : ℕ → RecvR) (times : ℕ → ℚ) (timeout : ℚ) (base : ℕ) :
    ℕ → ℕ → Option (Except Ex Bool × ℕ)
  | 0, _ => none
  | fuel + 1, k =>
    if times k < timeout then
      match recv (base + k) with
      | .nothing => some (.ok false, k + 1)
      | .raised e => some (.error e, k + 1)
      | .got s =>
        match sampleStill s with
        | .error e => some (.error e, k + 1)
        | .ok true => some (.ok true, k + 1)
        | .ok false => waitGo recv times timeout base fuel (k + 1)
    else some (.ok false, k)

/-- `wait_for_move_completion(con, state, timeout)` (lines 81-108),
started at receive index `base` with iteration bound `fuel`. -/

def wait_for_move_completion (recv : ℕ → RecvR) (times : ℕ → ℚ)
    (timeout : ℚ) (base fuel : ℕ) : Option (Except Ex Bool × ℕ) :=
  waitGo recv times timeout base fuel 0

/-- The word the confirmation prompt compares against (`"YES"`,
line 131). -/

def confirmWord : String := String.mk ['Y', 'E', 'S']

/-- Python's `str.upper()` on the response (ASCII case folding, as the
comparison target is the ASCII word `YES`). -/

def pyUpper (s : String) : String := String.mk (s.data.map Char.toUpper)

/-- Environment oracle for one invocation of `run_safe_robot_test`: the
result of the `input()` prompt and of each external transport call, in
the order and multiplicity the script may perform them.  `recv n` is the
result of the `n`-th `con.receive()` of the run (shared between the
initial read, both completion waits and both post-wait reads);
`waitTimes w k` is the elapsed wall-clock time at the `k`-th
loop-condition check of the `w`-th `wait_for_move_completion` call;
`fuel` bounds the modelled polling iterations. -/

structure Env where
  response : Except Ex String
  connectR : ℕ → Option Ex
  versionR : ℕ → Option Ex
  outSetupR : ℕ → Option Ex
  inSetupR : ℕ → Option Ex
  disconnectR : ℕ → Option Ex
  sleepRetryR : ℕ → Option Ex
  startOk : Except Ex Bool
  recv : ℕ → RecvR
  sendR : ℕ → Option Ex
  sleepPreMoveR : Option Ex
  sleepBetweenR : Option Ex
  pauseR : Option Ex
  tdDisconnectR : Option Ex
  waitTimes : ℕ → ℕ → ℚ
  fuel : ℕ

/-- Exit of the recipe-configuration retry loop (lines 178-212): `done`
(the `break` after both setup calls succeeded), `exhausted` (the
`return` after the third conflict), `fellThrough` (the `while` guard
failed, leaving `setp` as `None`), or a propagating exception. -/

inductive SetupExit
  | done
  | exhausted
  | fellThrough
  | exc (e : Ex)
deriving DecidableEq

/-- One `try` body of the configuration loop (lines 183-186): the
`send_output_setup` call, then `send_input_setup`.  `some e` is the
exception the attempt raised, with the calls it performed. -/

def setupAttempt (env : Env) (rc : ℕ) : Option Ex × List Ev :=
  match env.outSetupR rc with
  | some e => (some e, [.outSetupEv])
  | none =>
    match env.inSetupR rc with
    | some e => (some e, [.outSetupEv, .inSetupEv])
    | none => (none, [.outSetupEv, .inSetupEv])

/-- The `while retry_count < max_retries` loop (lines 182-212), with the
remaining loop-guard allowance `left` (`3 - retry_count`) as the
structural argument and `rc` the current `retry_count`.  Only a
`ValueError` whose message contains `already in use` takes the
disconnect / sleep-2s / reconnect branch, and only while
`retry_count < max_retries` after the increment (`left > 0` here);
any other `ValueError` or `Exception` is re-raised, a
`KeyboardInterrupt` is not caught here at all, and the disconnect,
sleep, reconnect and version calls of the handler may themselves raise,
which also propagates. -/

def setupGo (env : Env) : ℕ → ℕ → SetupExit × List Ev
  | 0, _ => (.fellThrough, [])
  | left + 1, rc =>
    match setupAttempt env rc with
    | (none, tr0) => (.done, tr0)
    | (some .valueAlreadyInUse, tr0) =>
      (match env.disconnectR rc with
      | some e => (.exc e, tr0 ++ [.disconnectEv])
      | none =>
        match env.sleepRetryR rc with
        | some e => (.exc e, tr0 ++ [.disconnectEv, .sleepEv 2])
        | none =>
          match left with
          | 0 => (.exhausted, tr0 ++ [.disconnectEv, .sleepEv 2])
          | _ + 1 =>
            match env.connectR (rc + 1) with
            | some e =>
              (.exc e, tr0 ++ [.disconnectEv, .sleepEv 2, .connectEv])
            | none =>
              match env.versionR (rc + 1) with
              | some e =>
                (.exc e,
                  tr0 ++ [.disconnectEv, .sleepEv 2, .connectEv, .versionEv])
              | none =>
                let r := setupGo env left (rc + 1)
                (r.1,
                  tr0 ++ [.disconnectEv, .sleepEv 2, .connectEv, .versionEv]
                    ++ r.2))
    | (some e, tr0) => (.exc e, tr0)

/-- Normal-return outcomes of the `try` body of `run_safe_robot_test`:
the terminal configuration failure (line 207), the dead `setp is None`
guard (line 216), `send_start` returning false (line 221), the missing
initial state (line 232), a failed movement validation (lines 253/259,
`k` the movement number), a completion-wait failure (lines 284/303), and
full success (line 307). -/

inductive BodyOutcome
  | configExhausted
  | setupNone
  | startFailed
  | noInitialState
  | validationFailed (k : ℕ)
  | moveTimeout (k : ℕ)
  | success
deriving DecidableEq

/-- How the `try` body of `run_safe_robot_test` ends: a plain `return`
(or falling off the end) with a `BodyOutcome`, or an exception escaping
to the `except` handlers. -/

inductive BodyExit
  | ret (o : BodyOutcome)
  | exc (e : Ex)
deriving DecidableEq

/-- Result of one dispatch-and-await block (lines 269-284 for movement
1, lines 288-303 for movement 2): completed (wait returned true and the
post-wait receive yielded a sample), the false branch (timeout or
missing sample during the wait), or an exception. -/

inductive MoveExit
  | moved
  | timedOut
  | exc (e : Ex)
deriving DecidableEq

/-- One movement block of `run_safe_robot_test`: write the six input
registers and `con.send(setp)` (lines 273-275 / 292-294), run
`wait_for_move_completion` (lines 278 / 297), and on `true` perform one
more `con.receive()` whose `actual_q` is read without a `None` check
(lines 279-281 / 298-300) — a `None` there raises `AttributeError`.
`w` is the movement index (0 or 1) and `base` the number of receives
performed before this block; returns the exit, this block's trace, and
the new receive count. -/

def doMove (env : Env) (w base : ℕ) (target : List ℚ) :
    Option (MoveExit × List Ev × ℕ) :=
  match env.sendR w with
  | some e => some (.exc e, [.sendEv target], base)
  | none =>
    match wait_for_move_completion env.recv (env.waitTimes w)
        MOVEMENT_TIMEOUT base env.fuel with
    | none => none
    | some (.error e, c) =>
      some (.exc e, .sendEv target :: List.replicate c .receiveEv, base + c)
    | some (.ok false, c) =>
      some (.timedOut, .sendEv target :: List.replicate c .receiveEv, base + c)
    | some (.ok true, c) =>
      match env.recv (base + c) with
      | .raised e =>
        some (.exc e,
          .sendEv target :: (List.replicate c .receiveEv ++ [.receiveEv]),
          base + c + 1)
      | .nothing =>
        some (.exc .attrError,
          .sendEv target :: (List.replicate c .receiveEv ++ [.receiveEv]),
          base + c + 1)
      | .got _ =>
        some (.moved,
          .sendEv target :: (List.replicate c .receiveEv ++ [.receiveEv]),
          base + c + 1)

/-- `target_pos_1` (lines 243-244): a copy of the current position with
`SMALL_MOVEMENT_OFFSET` added to joint 5.  Only evaluated when the list
has more than 5 elements (otherwise Python raises `IndexError` first,
which `tryBody` models separately). -/

def bumpJoint5 (q : List ℚ) : List ℚ :=
  q.set 5 (radd (q.getD 5 0) SMALL_MOVEMENT_OFFSET)

/-- The whole `try` body of `run_safe_robot_test` (lines 169-309):
connect, read the controller version, configure recipes with the
bounded retry loop, start synchronization, read the reference position,
compute and validate the two targets, then dispatch and await each
movement in turn.  Returns `none` when `env.fuel` was too small to
resolve a completion wait. -/

def tryBody (env : Env) : Option (BodyExit × List Ev) :=
  match env.connectR 0 with
  | some e => some (.exc e, [.connectEv])
  | none =>
  match env.versionR 0 with
  | some e => some (.exc e, [.connectEv, .versionEv])
  | none =>
  match setupGo env 3 0 with
  | (.exc e, str) => some (.exc e, .connectEv :: .versionEv :: str)
  | (.exhausted, str) =>
    some (.ret .configExhausted, .connectEv :: .versionEv :: str)
  | (.fellThrough, str) =>
    some (.ret .setupNone, .connectEv :: .versionEv :: str)
  | (.done, str) =>
  let tr0 := .connectEv :: .versionEv :: str
  match env.startOk with
  | .error e => some (.exc e, tr0 ++ [.startEv])
  | .ok false => some (.ret .startFailed, tr0 ++ [.startEv])
  | .ok true =>
  match env.recv 0 with
  | .raised e => some (.exc e, tr0 ++ [.startEv, .receiveEv])
  | .nothing => some (.ret .noInitialState, tr0 ++ [.startEv, .receiveEv])
  | .got s0 =>
  let tr1 := tr0 ++ [.startEv, .receiveEv]
  let q := s0.actual_q
  if q.length < 6 then some (.exc .excOther, tr1)
  else
  let t1 := bumpJoint5 q
  let t2 := q
  if (validate_joint_position q t1 MAX_JOINT_MOVEMENT).1 = false then
    some (.ret (.validationFailed 1), tr1)
  else if (validate_joint_position t1 t2 MAX_JOINT_MOVEMENT).1 = false then
    some (.ret (.validationFailed 2), tr1)
  else
  match env.sleepPreMoveR with
  | some e => some (.exc e, tr1 ++ [.sleepEv 2])
  | none =>
  let tr2 := tr1 ++ [.sleepEv 2]
  match doMove env 0 1 t1 with
  | none => none
  | some (.exc e, mtr, _) => some (.exc e, tr2 ++ mtr)
  | some (.timedOut, mtr, _) => some (.ret (.moveTimeout 1), tr2 ++ mtr)
  | some (.moved, mtr, base2) =>
  let tr3 := tr2 ++ mtr
  match env.sleepBetweenR with
  | some e => some (.exc e, tr3 ++ [.sleepEv 1])
  | none =>
  let tr4 := tr3 ++ [.sleepEv 1]
  match doMove env 1 base2 t2 with
  | none => none
  | some (.exc e, mtr2, _) => some (.exc e, tr4 ++ mtr2)
  | some (.timedOut, mtr2, _) => some (.ret (.moveTimeout 2), tr4 ++ mtr2)
  | some (.moved, mtr2, _) => some (.ret .success, tr4 ++ mtr2)

/-- The `finally` block (lines 320-328): always runs, attempts
`con.send_pause()` then `con.disconnect()` inside a bare
`try ... except:` — if the pause raises, the disconnect is skipped and
the exception is swallowed; if the disconnect raises, it is swallowed.
No exception ever escapes the block. -/

def teardown (env : Env) : List Ev :=
  match env.pauseR with
  | some _ => [.cleanupEv, .pauseEv]
  | none =>
    match env.tdDisconnectR with
    | some _ => [.cleanupEv, .pauseEv, .disconnectEv]
    | none => [.cleanupEv, .pauseEv, .disconnectEv]

/-- Final outcome of one invocation of `run_safe_robot_test`:
cancellation at the prompt (before any connection exists), an exception
raised at the prompt itself (uncaught — the prompt is outside the
`try`), a normal body outcome, a caught `KeyboardInterrupt`
(lines 311-313), or a caught `Exception` (lines 315-318). -/

inductive RunOutcome
  | cancelled
  | promptRaised (e : Ex)
  | normal (o : BodyOutcome)
  | interrupted
  | errorCaught (e : Ex)
deriving DecidableEq

/-- The `except` handlers of `run_safe_robot_test` (lines 311-318): a
normal return passes its outcome through, `KeyboardInterrupt` is caught
by the first handler (lines 311-313), every other exception kind —
all `Exception` subclasses — by the second (lines 315-318). -/

def mapExit : BodyExit → RunOutcome
  | .ret o => .normal o
  | .exc .kbInterrupt => .interrupted
  | .exc e => .errorCaught e

/-- `run_safe_robot_test()` (lines 115-328): the confirmation prompt and
its early `return` (lines 130-133, before the `try`/`finally`, so no
teardown happens on that path, and an exception at the prompt itself
propagates uncaught), then the `try` body, the two `except` handlers,
and the `finally` teardown.  `none` when `env.fuel` was too small to
resolve a completion wait. -/

def run_safe_robot_test (env : Env) : Option (RunOutcome × List Ev) :=
  match env.response with
  | .error e => some (.promptRaised e, [])
  | .ok r =>
    if pyUpper r = confirmWord then
      match tryBody env with
      | none => none
      | some (bx, tr) => some (mapExit bx, tr ++ teardown env)
    else some (.cancelled, [])

/-- Number of occurrences of event `e` in a trace. -/

def countEv (e : Ev) : List Ev → ℕ
  | [] => 0
  | x :: xs => (if x = e then 1 else 0) + countEv e xs

/-- The targets of the `con.send` calls in a trace, in order. -/

def sends : List Ev → List (List ℚ)
  | [] => []
  | .sendEv t :: xs => t :: sends xs
  | _ :: xs => sends xs

/-- The full external-call trace of the configuration loop when every
attempt is rejected with the register conflict: three setup attempts,
a disconnect and 2 s grace sleep after each, but a reconnect (with its
version read) before the second and third attempts only. -/

def confExhaustTrace : List Ev :=
  [.outSetupEv, .disconnectEv, .sleepEv 2, .connectEv, .versionEv,
   .outSetupEv, .disconnectEv, .sleepEv 2, .connectEv, .versionEv,
   .outSetupEv, .disconnectEv, .sleepEv 2]

/-- An environment whose configuration collaborator always reports the
register-conflict rejection, with every other external call
succeeding. -/

def envAlwaysConflict : Env where
  response := .ok confirmWord
  connectR := fun _ => none
  versionR := fun _ => none
  outSetupR := fun _ => some .valueAlreadyInUse
  inSetupR := fun _ => none
  disconnectR := fun _ => none
  sleepRetryR := fun _ => none
  startOk := .ok true
  recv := fun _ => .nothing
  sendR := fun _ => none
  sleepPreMoveR := none
  sleepBetweenR := none
  pauseR := none
  tdDisconnectR := none
  waitTimes := fun _ _ => 0
  fuel := 5

/-- An environment in which the operator answers the confirmation
prompt with the empty line instead of `YES`. -/

def envCancelled : Env :=
  { envAlwaysConflict with response := .ok (String.mk []) }

/-- The trace prefix of a run whose connect, version read, first
configuration attempt, synchronization start and initial telemetry read
all succeed. -/

def preTrace : List Ev :=
  [.connectEv, .versionEv, .outSetupEv, .inSetupEv, .startEv, .receiveEv]

def refPos : List ℚ := [0, mkRat (-157) 100, 0, mkRat (-157) 100, 0, 0]

/-- A telemetry sample at the reference position with all joint
velocities zero (instantly settled). -/

def refSample : Sample := ⟨refPos, [0, 0, 0, 0, 0, 0], [], 0, 0⟩

/-- A 7-element joint vector (malformed telemetry). -/

def sampleLen7 : Sample := ⟨[0, 0, 0, 0, 0, 0, 0], [0, 0, 0, 0, 0, 0], [], 0, 0⟩

/-- Environment whose initial telemetry reports 7 joint positions. -/

def envDim7 : Env :=
  { envAlwaysConflict with
    outSetupR := fun _ => none
    recv := fun _ => .got sampleLen7 }

/-- Environment for the C9 witness: telemetry settles instantly, but
the post-settlement receive (the third receive overall) yields `None`. -/

def envC9 : Env :=
  { envAlwaysConflict with
    outSetupR := fun _ => none
    recv := fun k => if k = 2 then .nothing else .got refSample
    fuel := 9 }

/-- Environment for the C7 witness: telemetry always yields the settled
reference sample, so both movements settle immediately. -/

def envC7 : Env :=
  { envAlwaysConflict with
    outSetupR := fun _ => none
    recv := fun _ => .got refSample
    fuel := 9 }

/-- Environment for the C7 counterexample: both movements settle, but
the receive after the second settlement (the fifth receive overall)
yields `None`. -/

def envC7x : Env :=
  { envAlwaysConflict with
    outSetupR := fun _ => none
    recv := fun k => if k = 4 then .nothing else .got refSample
    fuel := 9 }

theorem radd_eq_add (a b : ℚ) : radd a b = a + b := by
  have ha : ((a.den : ℚ)) ≠ 0 := by positivity
  have hb : ((b.den : ℚ)) ≠ 0 := by positivity
  have ha' := (div_eq_iff ha).mp (Rat.num_div_den a)
  have hb' := (div_eq_iff hb).mp (Rat.num_div_den b)
  unfold radd
  rw [Rat.mkRat_eq_div]
  push_cast
  rw [div_eq_iff (by positivity : ((a.den : ℚ)) * (b.den : ℚ) ≠ 0), ha', hb']
  ring

theorem rsub_eq_sub (a b : ℚ) : rsub a b = a - b := by
  have ha : ((a.den : ℚ)) ≠ 0 := by positivity
  have hb : ((b.den : ℚ)) ≠ 0 := by positivity
  have ha' := (div_eq_iff ha).mp (Rat.num_div_den a)
  have hb' := (div_eq_iff hb).mp (Rat.num_div_den b)
  unfold rsub
  rw [Rat.mkRat_eq_div]
  push_cast
  rw [div_eq_iff (by positivity : ((a.den : ℚ)) * (b.den : ℚ) ≠ 0), ha', hb']
  ring

theorem rneg_eq_neg (a : ℚ) : rneg a = -a := by
  unfold rneg
  rw [Rat.mkRat_eq_div]
  push_cast
  rw [neg_div, Rat.num_div_den]

theorem rabs_eq_abs (x : ℚ) : rabs x = |x| := by
  unfold rabs
  rw [rneg_eq_neg]
  rcases lt_or_ge x 0 with h | h
  · rw [if_pos h, abs_of_neg h]
  · rw [if_neg (not_lt.mpr h), abs_of_nonneg h]

theorem rmax_eq_max (a b : ℚ) : rmax a b = max a b := by
  unfold rmax
  rcases lt_or_ge a b with h | h
  · rw [if_pos h, max_eq_right h.le]
  · rw [if_neg (not_lt.mpr h), max_eq_left h]

theorem countEv_append (e : Ev) (l₁ l₂ : List Ev) :
    countEv e (l₁ ++ l₂) = countEv e l₁ + countEv e l₂ := by
  induction l₁ with
  | nil => simp [countEv]
  | cons x xs ih => simp [countEv, ih]; ring

theorem countEv_replicate (e x : Ev) (n : ℕ) :
    countEv e (List.replicate n x) = if x = e then n else 0 := by
  induction n with
  | zero => simp [countEv]
  | succ n ih => simp only [List.replicate, countEv, ih]; split <;> omega

theorem sends_append (l₁ l₂ : List Ev) :
    sends (l₁ ++ l₂) = sends l₁ ++ sends l₂ := by
  induction l₁ with
  | nil => simp [sends]
  | cons x xs ih => cases x <;> simp [sends, ih]

theorem sends_replicate_receive (n : ℕ) :
    sends (List.replicate n .receiveEv) = [] := by
  induction n with
  | zero => simp [sends]
  | succ n ih => simp [List.replicate, sends, ih]

theorem rabs_rsub (t c : ℚ) : rabs (rsub t c) = |t - c| := by
  rw [rsub_eq_sub, rabs_eq_abs]

theorem checkJoints_true_iff (maxd : ℚ) :
    ∀ (cs ts : List ℚ) (i : ℕ),
      ((checkJoints maxd i cs ts).1 = true ↔
        ∀ j, j < min cs.length ts.length →
          |ts.getD j 0 - cs.getD j 0| ≤ maxd) := by
  intro cs
  induction cs with
  | nil => intro ts i; simp [checkJoints]
  | cons c cs ih =>
    intro ts i
    cases ts with
    | nil => simp [checkJoints]
    | cons t ts =>
      by_cases h : rabs (rsub t c) > maxd
      · simp only [checkJoints, if_pos h]
        constructor
        · intro hfalse; cases hfalse
        · intro hall
          exfalso
          have h0 := hall 0 (by simp [Nat.lt_min])
          rw [rabs_rsub] at h
          simp only [List.getD_cons_zero] at h0
          exact absurd h0 (not_le.mpr h)
      · simp only [checkJoints, if_neg h]
        rw [ih ts (i + 1)]
        constructor
        · intro hall j hj
          cases j with
          | zero =>
            simpa only [List.getD_cons_zero, ← rabs_rsub] using not_lt.mp h
          | succ j =>
            have hj' : j < min cs.length ts.length := by
              simp only [List.length_cons, Nat.min_def] at hj ⊢
              split at hj <;> split <;> omega
            simpa only [List.getD_cons_succ] using hall j hj'
        · intro hall j hj
          have hj' : j + 1 < min (c :: cs).length (t :: ts).length := by
            simp only [List.length_cons, Nat.min_def] at hj ⊢
            split at hj <;> split <;> omega
          simpa only [List.getD_cons_succ] using hall (j + 1) hj'

theorem checkJoints_fail (maxd : ℚ) :
    ∀ (cs ts : List ℚ) (i k : ℕ) (d : ℚ),
      checkJoints maxd i cs ts = (false, .jointErr k d) →
      ∃ j, k = i + j ∧ j < min cs.length ts.length ∧
        d = |ts.getD j 0 - cs.getD j 0| ∧ maxd < d ∧
        ∀ j', j' < j → |ts.getD j' 0 - cs.getD j' 0| ≤ maxd := by
  intro cs
  induction cs with
  | nil => intro ts i k d h; simp [checkJoints] at h
  | cons c cs ih =>
    intro ts i k d h
    cases ts with
    | nil => simp [checkJoints] at h
    | cons t ts =>
      by_cases hgt : rabs (rsub t c) > maxd
      · simp only [checkJoints, if_pos hgt, Prod.mk.injEq, ValRes.jointErr.injEq]
          at h
        obtain ⟨-, hik, hd⟩ := h
        refine ⟨0, by omega, by simp [Nat.lt_min], ?_, ?_,
          fun j' hj' => absurd hj' (Nat.not_lt_zero j')⟩
        · simp only [List.getD_cons_zero]
          rw [← hd, rabs_rsub]
        · rw [← hd]
          exact hgt
      · simp only [checkJoints, if_neg hgt] at h
        obtain ⟨j, hk, hj, hd, hgt', hall⟩ := ih ts (i + 1) k d h
        refine ⟨j + 1, by omega, ?_, ?_, hgt', ?_⟩
        · simp only [List.length_cons, Nat.min_def] at hj ⊢
          split at hj <;> split <;> omega
        · simpa only [List.getD_cons_succ] using hd
        · intro j' hj'
          cases j' with
          | zero =>
            simpa only [List.getD_cons_zero, ← rabs_rsub] using not_lt.mp hgt
          | succ j' =>
            simpa only [List.getD_cons_succ] using hall j' (by omega)

theorem checkJoints_false_shape (maxd : ℚ) :
    ∀ (cs ts : List ℚ) (i : ℕ), (checkJoints maxd i cs ts).1 = false →
      ∃ k d, checkJoints maxd i cs ts = (false, .jointErr k d) := by
  intro cs
  induction cs with
  | nil => intro ts i h; simp [checkJoints] at h
  | cons c cs ih =>
    intro ts i h
    cases ts with
    | nil => simp [checkJoints] at h
    | cons t ts =>
      by_cases hgt : rabs (rsub t c) > maxd
      · exact ⟨i, rabs (rsub t c), by simp only [checkJoints, if_pos hgt]⟩
      · simp only [checkJoints, if_neg hgt] at h ⊢
        exact ih ts (i + 1) h

/-- C3: for 6-element reference and target vectors, `validate` succeeds
iff every per-joint absolute difference is at most `maxDelta`; when it
fails on a joint, the reported index is the first (in order 0..5) whose
delta exceeds the bound and the reported magnitude is that measured
delta; and every non-ok result on well-dimensioned input carries such a
joint report. -/
theorem C3_validator_bound (cur targ : List ℚ) (maxd : ℚ)
    (hc : cur.length = 6) (ht : targ.length = 6) :
    ((validate_joint_position cur targ maxd).1 = true ↔
      ∀ j, j < 6 → |targ.getD j 0 - cur.getD j 0| ≤ maxd) ∧
    (∀ k d, validate_joint_position cur targ maxd = (false, .jointErr k d) →
      k < 6 ∧ d = |targ.getD k 0 - cur.getD k 0| ∧ maxd < d ∧
      ∀ j, j < k → |targ.getD j 0 - cur.getD j 0| ≤ maxd) ∧
    ((validate_joint_position cur targ maxd).1 = false →
      ∃ k d,
        validate_joint_position cur targ maxd = (false, .jointErr k d)) := by
  have hdim : ¬(cur.length ≠ 6 ∨ targ.length ≠ 6) := by omega
  unfold validate_joint_position
  rw [if_neg hdim]
  refine ⟨?_, ?_, ?_⟩
  · rw [checkJoints_true_iff maxd cur targ 0, hc, ht]
    simp
  · intro k d h
    obtain ⟨j, hk, hj, hd, hgt, hall⟩ := checkJoints_fail maxd cur targ 0 k d h
    rw [hc, ht] at hj
    simp only [Nat.zero_add] at hk
    subst hk
    exact ⟨by simpa using hj, hd, hgt, hall⟩
  · exact checkJoints_false_shape maxd cur targ 0

/-- Witness for C3 at the spec's example: reference all zeros, target
offset `0.05` on joint 5, `maxDelta = 0.05` — the joint-5 delta is
within the bound, extracted from the validator's ok result. -/
theorem C3_validator_bound_witness :
    |([0, 0, 0, 0, 0, mkRat 1 20] : List ℚ).getD 5 0 -
      ([0, 0, 0, 0, 0, 0] : List ℚ).getD 5 0| ≤ mkRat 5 100 :=
  (C3_validator_bound [0, 0, 0, 0, 0, 0] [0, 0, 0, 0, 0, mkRat 1 20]
    (mkRat 5 100) (by decide) (by decide)).1.mp (by decide) 5 (by decide)

/-- C8 counterexample: on a 5-element vector the code returns the fixed
message `Invalid position dimensions`, which carries no joint index and
no magnitude — the claim's "reporting the offending joint index and
magnitude" does not hold for the dimension error. -/
theorem C8_counterexample :
    validate_joint_position [0, 0, 0, 0, 0] [0, 0, 0, 0, 0] 1 =
      (false, .dimErr) ∧
    ¬ ∃ i d, (validate_joint_position [0, 0, 0, 0, 0] [0, 0, 0, 0, 0] 1).2 =
      ValRes.jointErr i d := by
  constructor
  · decide
  · intro ⟨i, d, h⟩
    simp [validate_joint_position] at h

/-- C8 (amended): when either vector does not have exactly 6 elements —
in particular for 5- or 7-element vectors — `validate` returns not-ok
with the dimension error (which carries no joint index or magnitude),
and the result is the same constant whatever the element values, so no
truncated or padded comparison takes place. -/
theorem C8_dimension_guard (cur targ : List ℚ) (maxd : ℚ)
    (h : cur.length ≠ 6 ∨ targ.length ≠ 6) :
    validate_joint_position cur targ maxd = (false, .dimErr) := by
  unfold validate_joint_position
  rw [if_pos h]

/-- Witness for C8 at a 7-element target vector. -/
theorem C8_dimension_guard_witness :
    validate_joint_position [0, 0, 0, 0, 0, 0] [0, 0, 0, 0, 0, 0, 0] 1 =
      (false, .dimErr) :=
  C8_dimension_guard _ _ _ (by decide)

theorem waitGo_settles (recv : ℕ → RecvR) (times : ℕ → ℚ) (timeout : ℚ)
    (base : ℕ) (smp : ℕ → Sample) :
    ∀ N k fuel, N + 1 ≤ fuel →
      (∀ i, i ≤ N → times (k + i) < timeout) →
      (∀ i, i ≤ N → recv (base + (k + i)) = .got (smp (k + i))) →
      (∀ i, i < N → sampleStill (smp (k + i)) = .ok false) →
      sampleStill (smp (k + N)) = .ok true →
      waitGo recv times timeout base fuel k = some (.ok true, k + N + 1) := by
  intro N
  induction N with
  | zero =>
    intro k fuel hfuel ht hr _ hstill
    obtain ⟨f, rfl⟩ : ∃ f, fuel = f + 1 :=
      ⟨fuel - 1, by omega⟩
    have htk : times k < timeout := by simpa using ht 0 (by omega)
    have hrk : recv (base + k) = .got (smp k) := by simpa using hr 0 (by omega)
    have hsk : sampleStill (smp k) = .ok true := by simpa using hstill
    rw [waitGo]
    simp only [if_pos htk, hrk, hsk]
  | succ N ih =>
    intro k fuel hfuel ht hr hmove hstill
    obtain ⟨f, rfl⟩ : ∃ f, fuel = f + 1 :=
      ⟨fuel - 1, by omega⟩
    have htk : times k < timeout := by simpa using ht 0 (by omega)
    have hrk : recv (base + k) = .got (smp k) := by simpa using hr 0 (by omega)
    have hmk : sampleStill (smp k) = .ok false := by
      simpa using hmove 0 (by omega)
    have hres := ih (k + 1) f (by omega)
      (fun i hi => by
        have := ht (i + 1) (by omega)
        rwa [show k + (i + 1) = k + 1 + i by omega] at this)
      (fun i hi => by
        have := hr (i + 1) (by omega)
        rwa [show k + (i + 1) = k + 1 + i by omega] at this)
      (fun i hi => by
        have := hmove (i + 1) (by omega)
        rwa [show k + (i + 1) = k + 1 + i by omega] at this)
      (by rwa [show k + 1 + N = k + (N + 1) by omega])
    rw [waitGo]
    simp only [if_pos htk, hrk, hmk]
    rw [hres, show k + 1 + N + 1 = k + (N + 1) + 1 by omega]

theorem waitGo_times_out (recv : ℕ → RecvR) (times : ℕ → ℚ) (timeout : ℚ)
    (base : ℕ) (smp : ℕ → Sample) :
    ∀ K k fuel, K + 1 ≤ fuel →
      (∀ i, i < K → times (k + i) < timeout) →
      (∀ i, i < K → recv (base + (k + i)) = .got (smp (k + i))) →
      (∀ i, i < K → sampleStill (smp (k + i)) = .ok false) →
      ¬ times (k + K) < timeout →
      waitGo recv times timeout base fuel k = some (.ok false, k + K) := by
  intro K
  induction K with
  | zero =>
    intro k fuel hfuel _ _ _ hstop
    obtain ⟨f, rfl⟩ : ∃ f, fuel = f + 1 :=
      ⟨fuel - 1, by omega⟩
    rw [waitGo, if_neg (by simpa using hstop)]
    simp
  | succ K ih =>
    intro k fuel hfuel ht hr hmove hstop
    obtain ⟨f, rfl⟩ : ∃ f, fuel = f + 1 :=
      ⟨fuel - 1, by omega⟩
    have htk : times k < timeout := by simpa using ht 0 (by omega)
    have hrk : recv (base + k) = .got (smp k) := by simpa using hr 0 (by omega)
    have hmk : sampleStill (smp k) = .ok false := by
      simpa using hmove 0 (by omega)
    have hres := ih (k + 1) f (by omega)
      (fun i hi => by
        have := ht (i + 1) (by omega)
        rwa [show k + (i + 1) = k + 1 + i by omega] at this)
      (fun i hi => by
        have := hr (i + 1) (by omega)
        rwa [show k + (i + 1) = k + 1 + i by omega] at this)
      (fun i hi => by
        have := hmove (i + 1) (by omega)
        rwa [show k + (i + 1) = k + 1 + i by omega] at this)
      (by rwa [show k + 1 + K = k + (K + 1) by omega])
    rw [waitGo]
    simp only [if_pos htk, hrk, hmk]
    rw [hres, show k + 1 + K = k + (K + 1) by omega]

/-- C6: the completion wait returns the completed result exactly at the
first polled sample whose maximum absolute joint velocity is strictly
below the `0.001` stillness threshold (sample index `N`, consuming
exactly `N+1` receives and not fewer), and if every polled sample before
the first failing wall-clock check is above the threshold, it returns
the timeout result at that check — even though the stream might have
settled one cycle later — having consumed exactly the receives polled so
far. -/
theorem C6_settlement_and_timeout (recv : ℕ → RecvR) (times : ℕ → ℚ)
    (timeout : ℚ) (base fuel : ℕ) (smp : ℕ → Sample) :
    (∀ N, N < fuel →
      (∀ i, i ≤ N → times i < timeout) →
      (∀ i, i ≤ N → recv (base + i) = .got (smp i)) →
      (∀ i, i < N → sampleStill (smp i) = .ok false) →
      sampleStill (smp N) = .ok true →
      wait_for_move_completion recv times timeout base fuel =
        some (.ok true, N + 1)) ∧
    (∀ K, K < fuel →
      (∀ i, i < K → times i < timeout) →
      (∀ i, i < K → recv (base + i) = .got (smp i)) →
      (∀ i, i < K → sampleStill (smp i) = .ok false) →
      ¬ times K < timeout →
      wait_for_move_completion recv times timeout base fuel =
        some (.ok false, K)) := by
  constructor
  · intro N hN ht hr hmove hstill
    have := waitGo_settles recv times timeout base smp N 0 fuel (by omega)
      (fun i hi => by simpa using ht i hi)
      (fun i hi => by simpa using hr i hi)
      (fun i hi => by simpa using hmove i hi)
      (by simpa using hstill)
    simpa [wait_for_move_completion] using this
  · intro K hK ht hr hmove hstop
    have := waitGo_times_out recv times timeout base smp K 0 fuel (by omega)
      (fun i hi => by simpa using ht i hi)
      (fun i hi => by simpa using hr i hi)
      (fun i hi => by simpa using hmove i hi)
      (by simpa using hstop)
    simpa [wait_for_move_completion] using this

/-- Witness for C6: a stream that is moving at sample 0 and still at
sample 1 settles with exactly 2 receives; a stream that is always moving
but whose second wall-clock check is past the 10 s budget times out with
exactly 1 receive. -/
theorem C6_settlement_and_timeout_witness :
    wait_for_move_completion
      (fun n => if n = 0 then
          .got ⟨[0, 0, 0, 0, 0, 0], [1, 0, 0, 0, 0, 0], [], 0, 0⟩
        else .got ⟨[0, 0, 0, 0, 0, 0], [0, 0, 0, 0, 0, 0], [], 0, 0⟩)
      (fun _ => 0) MOVEMENT_TIMEOUT 0 5 = some (.ok true, 2) ∧
    wait_for_move_completion
      (fun _ => .got ⟨[0, 0, 0, 0, 0, 0], [1, 0, 0, 0, 0, 0], [], 0, 0⟩)
      (fun k => if k = 0 then 0 else 10) MOVEMENT_TIMEOUT 0 5 =
      some (.ok false, 1) := by
  constructor
  · exact (C6_settlement_and_timeout _ _ _ _ 5
      (fun n => if n = 0 then
          ⟨[0, 0, 0, 0, 0, 0], [1, 0, 0, 0, 0, 0], [], 0, 0⟩
        else ⟨[0, 0, 0, 0, 0, 0], [0, 0, 0, 0, 0, 0], [], 0, 0⟩)).1
      1 (by decide) (fun i _ => by decide)
      (fun i _ => by by_cases h : i = 0 <;> simp [h])
      (fun i hi => by
        have h0 : i = 0 := by omega
        subst h0
        decide)
      (by decide)
  · exact (C6_settlement_and_timeout _ _ _ _ 5
      (fun _ => ⟨[0, 0, 0, 0, 0, 0], [1, 0, 0, 0, 0, 0], [], 0, 0⟩)).2
      1 (by decide)
      (fun i hi => by
        have h0 : i = 0 := by omega
        subst h0
        decide)
      (fun i _ => by simp)
      (fun i hi => by
        have h0 : i = 0 := by omega
        subst h0
        decide)
      (by decide)

/-- C10: the wall-clock check precedes every telemetry request — with a
non-positive timeout (and a non-negative first elapsed reading, as
`time.time()` is monotone) the wait returns the failure result having
performed zero receives, so it can never return the completed result. -/
theorem C10_timeout_check_first (recv : ℕ → RecvR) (times : ℕ → ℚ)
    (timeout : ℚ) (base fuel : ℕ)
    (htimeout : timeout ≤ 0) (hstart : 0 ≤ times 0) (hfuel : 0 < fuel) :
    wait_for_move_completion recv times timeout base fuel =
      some (.ok false, 0) := by
  obtain ⟨f, rfl⟩ : ∃ f, fuel = f + 1 := ⟨fuel - 1, by omega⟩
  unfold wait_for_move_completion
  rw [waitGo, if_neg (by linarith)]

/-- Witness for C10 at timeout 0 with an always-still stream: no sample
is requested and the result is the failure outcome. -/
theorem C10_timeout_check_first_witness :
    wait_for_move_completion
      (fun _ => .got ⟨[0, 0, 0, 0, 0, 0], [0, 0, 0, 0, 0, 0], [], 0, 0⟩)
      (fun _ => 0) 0 0 5 = some (.ok false, 0) :=
  C10_timeout_check_first _ _ _ _ _ (by decide) (by decide) (by decide)

/-- C5 counterexample: the completion wait returns a plain boolean, not
three distinguishable outcomes — a run whose first telemetry request
yields no sample (session lost) and a run that times out after one
moving sample produce the very same result value, so a caller cannot
tell a lost session apart from a timeout. -/
theorem C5_counterexample :
    wait_for_move_completion (fun _ => .nothing) (fun _ => 0)
        MOVEMENT_TIMEOUT 0 5 =
      wait_for_move_completion
        (fun _ => .got ⟨[0, 0, 0, 0, 0, 0], [1, 0, 0, 0, 0, 0], [], 0, 0⟩)
        (fun k => if k = 0 then 0 else 10) MOVEMENT_TIMEOUT 0 5 ∧
    wait_for_move_completion (fun _ => .nothing) (fun _ => 0)
        MOVEMENT_TIMEOUT 0 5 = some (.ok false, 1) := by
  constructor
  · decide
  · decide

/-- C5 (amended): the wait returns only a boolean; when a telemetry
request yields no sample it returns `false` immediately — exactly one
receive, no retry — and a run whose wall-clock check fails returns the
same `false` (with no receives), so session loss is not distinguishable
from timeout in the result. -/
theorem C5_sessionloss_immediate (recv : ℕ → RecvR) (times times2 : ℕ → ℚ)
    (timeout : ℚ) (base fuel : ℕ)
    (h0 : times 0 < timeout) (hl : recv base = .nothing) (hf : 0 < fuel) :
    wait_for_move_completion recv times timeout base fuel =
      some (.ok false, 1) ∧
    (¬ times2 0 < timeout →
      wait_for_move_completion recv times2 timeout base fuel =
        some (.ok false, 0)) := by
  obtain ⟨f, rfl⟩ : ∃ f, fuel = f + 1 := ⟨fuel - 1, by omega⟩
  constructor
  · unfold wait_for_move_completion
    rw [waitGo]
    simp only [if_pos h0, Nat.add_zero, hl]
  · intro h2
    unfold wait_for_move_completion
    rw [waitGo, if_neg h2]

/-- Witness for C5 (amended) with a lost-session stream. -/
theorem C5_sessionloss_immediate_witness :
    wait_for_move_completion (fun _ => .nothing) (fun _ => 0)
        MOVEMENT_TIMEOUT 3 5 = some (.ok false, 1) ∧
    (¬ (fun _ => (10 : ℚ)) 0 < MOVEMENT_TIMEOUT →
      wait_for_move_completion (fun _ => .nothing) (fun _ => (10 : ℚ))
        MOVEMENT_TIMEOUT 3 5 = some (.ok false, 0)) :=
  C5_sessionloss_immediate (fun _ => .nothing) (fun _ => 0)
    (fun _ => (10 : ℚ)) MOVEMENT_TIMEOUT 3 5 (by decide) (by decide)
    (by decide)

theorem setupGo_conflict_step (env : Env) (left rc : ℕ)
    (h1 : env.outSetupR rc = some .valueAlreadyInUse)
    (hd : env.disconnectR rc = none) (hs : env.sleepRetryR rc = none)
    (hc : env.connectR (rc + 1) = none) (hv : env.versionR (rc + 1) = none) :
    setupGo env (left + 1 + 1) rc =
      ((setupGo env (left + 1) (rc + 1)).1,
        [.outSetupEv, .disconnectEv, .sleepEv 2, .connectEv, .versionEv]
          ++ (setupGo env (left + 1) (rc + 1)).2) := by
  conv_lhs => rw [setupGo]
  simp only [setupAttempt, h1, hd, hs, hc, hv, List.cons_append,
    List.nil_append]

theorem setupGo_conflict_last (env : Env) (rc : ℕ)
    (h1 : env.outSetupR rc = some .valueAlreadyInUse)
    (hd : env.disconnectR rc = none) (hs : env.sleepRetryR rc = none) :
    setupGo env (0 + 1) rc =
      (.exhausted, [.outSetupEv, .disconnectEv, .sleepEv 2]) := by
  conv_lhs => rw [setupGo]
  simp only [setupAttempt, h1, hd, hs, List.cons_append, List.nil_append]

/-- C2 counterexample: with an always-conflicting configuration
collaborator the loop performs exactly 3 attempts and 3 disconnects but
only 2 reconnects — there is no reconnect after the third failed
attempt — so the claimed "3 disconnect/reconnect cycles" does not hold
for the reconnect count. -/
theorem C2_counterexample :
    setupGo envAlwaysConflict 3 0 = (.exhausted, confExhaustTrace) ∧
    countEv .outSetupEv confExhaustTrace = 3 ∧
    countEv .disconnectEv confExhaustTrace = 3 ∧
    countEv .connectEv confExhaustTrace = 2 := by
  refine ⟨by decide, by decide, by decide, by decide⟩

/-- C2 (amended): only the register-conflict rejection is retried —
after a disconnect and a fixed 2 s grace sleep, with a reconnect before
the next attempt when the budget allows — while any other rejection
propagates immediately with no disconnect and no retry; an
always-conflicting collaborator causes exactly 3 configuration attempts
(3 disconnects, 2 reconnects) and then the terminal configuration
error, never an unbounded loop. -/
theorem C2_retry_policy (env : Env)
    (hconf : ∀ rc, rc < 3 → env.outSetupR rc = some .valueAlreadyInUse)
    (hd : ∀ rc, rc < 3 → env.disconnectR rc = none)
    (hs : ∀ rc, rc < 3 → env.sleepRetryR rc = none)
    (hc : ∀ rc, rc < 3 → env.connectR rc = none)
    (hv : ∀ rc, rc < 3 → env.versionR rc = none) :
    setupGo env 3 0 = (.exhausted, confExhaustTrace) ∧
    countEv .outSetupEv confExhaustTrace = 3 ∧
    countEv .disconnectEv confExhaustTrace = 3 ∧
    countEv .connectEv confExhaustTrace = 2 ∧
    (∀ env2 : Env, ∀ left rc e, env2.outSetupR rc = some e →
      e ≠ .valueAlreadyInUse →
      setupGo env2 (left + 1) rc = (.exc e, [.outSetupEv])) ∧
    (∀ env2 : Env, ∀ left rc e, env2.outSetupR rc = none →
      env2.inSetupR rc = some e → e ≠ .valueAlreadyInUse →
      setupGo env2 (left + 1) rc =
        (.exc e, [.outSetupEv, .inSetupEv])) := by
  refine ⟨?_, by decide, by decide, by decide, ?_, ?_⟩
  · have e0 := setupGo_conflict_step env 1 0 (hconf 0 (by omega))
      (hd 0 (by omega)) (hs 0 (by omega)) (hc 1 (by omega)) (hv 1 (by omega))
    have e1 := setupGo_conflict_step env 0 1 (hconf 1 (by omega))
      (hd 1 (by omega)) (hs 1 (by omega)) (hc 2 (by omega)) (hv 2 (by omega))
    have e2 := setupGo_conflict_last env 2 (hconf 2 (by omega))
      (hd 2 (by omega)) (hs 2 (by omega))
    norm_num at e0 e1 e2
    rw [e0, e1, e2]
    simp [confExhaustTrace]
  · intro env2 left rc e h1 hne
    conv_lhs => rw [setupGo]
    simp only [setupAttempt, h1]
  · intro env2 left rc e h1 h2 hne
    conv_lhs => rw [setupGo]
    simp only [setupAttempt, h1, h2]

/-- Witness for C2 at the always-conflicting environment. -/
theorem C2_retry_policy_witness :
    setupGo envAlwaysConflict 3 0 = (.exhausted, confExhaustTrace) ∧
    countEv .outSetupEv confExhaustTrace = 3 ∧
    countEv .disconnectEv confExhaustTrace = 3 ∧
    countEv .connectEv confExhaustTrace = 2 ∧
    (∀ env2 : Env, ∀ left rc e, env2.outSetupR rc = some e →
      e ≠ .valueAlreadyInUse →
      setupGo env2 (left + 1) rc = (.exc e, [.outSetupEv])) ∧
    (∀ env2 : Env, ∀ left rc e, env2.outSetupR rc = none →
      env2.inSetupR rc = some e → e ≠ .valueAlreadyInUse →
      setupGo env2 (left + 1) rc =
        (.exc e, [.outSetupEv, .inSetupEv])) :=
  C2_retry_policy envAlwaysConflict (fun _ _ => rfl) (fun _ _ => rfl)
    (fun _ _ => rfl) (fun _ _ => rfl) (fun _ _ => rfl)

theorem setupAttempt_no_cleanup (env : Env) (rc : ℕ) :
    countEv .cleanupEv (setupAttempt env rc).2 = 0 := by
  unfold setupAttempt
  rcases env.outSetupR rc with _ | e1
  · rcases env.inSetupR rc with _ | e2 <;> simp [countEv]
  · simp [countEv]

theorem setupGo_no_cleanup (env : Env) :
    ∀ left rc, countEv .cleanupEv (setupGo env left rc).2 = 0 := by
  intro left
  induction left with
  | zero => intro rc; simp [setupGo, countEv]
  | succ n ih =>
    intro rc
    have ha := setupAttempt_no_cleanup env rc
    rw [setupGo]
    rcases hs0 : setupAttempt env rc with ⟨o, tr0⟩
    rw [hs0] at ha
    rcases o with _ | e
    · simpa using ha
    · cases e
      case kbInterrupt => simpa using ha
      case valueOther => simpa using ha
      case attrError => simpa using ha
      case excOther => simpa using ha
      case valueAlreadyInUse =>
        rcases hd : env.disconnectR rc with _ | e1
        · rcases hsl : env.sleepRetryR rc with _ | e2
          · cases n with
            | zero => simp [countEv_append, countEv, ha]
            | succ m =>
              rcases hc : env.connectR (rc + 1) with _ | e3
              · rcases hv : env.versionR (rc + 1) with _ | e4
                · simp [countEv_append, countEv, ha, ih]
                · simp [countEv_append, countEv, ha]
              · simp [countEv_append, countEv, ha]
          · simp [countEv_append, countEv, ha]
        · simp [countEv_append, countEv, ha]

theorem doMove_no_cleanup (env : Env) (w base : ℕ) (target : List ℚ) :
    ∀ mx mtr b2, doMove env w base target = some (mx, mtr, b2) →
      countEv .cleanupEv mtr = 0 := by
  intro mx mtr b2 h
  unfold doMove at h
  rcases hsw : env.sendR w with _ | e <;> simp only [hsw] at h
  · rcases hw : wait_for_move_completion env.recv (env.waitTimes w)
        MOVEMENT_TIMEOUT base env.fuel with _ | ⟨r, c⟩ <;>
      simp only [hw] at h
    · cases h
    · rcases r with e | b1
      · simp only [] at h
        rcases h with ⟨rfl, rfl, rfl⟩
        simp [countEv, countEv_replicate]
      · cases b1
        · simp only [] at h
          rcases h with ⟨rfl, rfl, rfl⟩
          simp [countEv, countEv_replicate]
        · rcases hr : env.recv (base + c) with s | _ | e <;>
            simp only [hr] at h <;>
            rcases h with ⟨rfl, rfl, rfl⟩ <;>
            simp [countEv, countEv_append, countEv_replicate]
  · rcases h with ⟨rfl, rfl, rfl⟩
    simp [countEv]

theorem tryBody_no_cleanup (env : Env) :
    ∀ b t, tryBody env = some (b, t) → countEv .cleanupEv t = 0 := by
  intro b t h
  unfold tryBody at h
  rcases hc : env.connectR 0 with _ | e <;> simp only [hc] at h
  case some =>
    rcases h with ⟨rfl, rfl⟩
    simp [countEv]
  rcases hv : env.versionR 0 with _ | e <;> simp only [hv] at h
  case some =>
    rcases h with ⟨rfl, rfl⟩
    simp [countEv]
  have hset := setupGo_no_cleanup env 3 0
  rcases hsg : setupGo env 3 0 with ⟨sx, str⟩
  rw [hsg] at hset h
  simp only [] at hset
  rcases sx with _ | _ | _ | e
  case exc =>
    rcases h with ⟨rfl, rfl⟩
    simp [countEv, hset]
  case exhausted =>
    rcases h with ⟨rfl, rfl⟩
    simp [countEv, hset]
  case fellThrough =>
    rcases h with ⟨rfl, rfl⟩
    simp [countEv, hset]
  rcases hst : env.startOk with e | b1 <;> simp only [hst] at h
  case error =>
    rcases h with ⟨rfl, rfl⟩
    simp [countEv, countEv_append, hset]
  cases b1
  case false =>
    rcases h with ⟨rfl, rfl⟩
    simp [countEv, countEv_append, hset]
  rcases hr0 : env.recv 0 with s0 | _ | e <;> simp only [hr0] at h
  case nothing =>
    rcases h with ⟨rfl, rfl⟩
    simp [countEv, countEv_append, hset]
  case raised =>
    rcases h with ⟨rfl, rfl⟩
    simp [countEv, countEv_append, hset]
  by_cases hlen : s0.actual_q.length < 6 <;>
    simp only [hlen, if_true, if_false] at h
  all_goals try
    (rcases h with ⟨rfl, rfl⟩
     simp [countEv, countEv_append, hset])
  by_cases hv1 : (validate_joint_position s0.actual_q (bumpJoint5 s0.actual_q)
      MAX_JOINT_MOVEMENT).1 = false <;> simp only [hv1, if_true, if_false] at h
  all_goals try
    (rcases h with ⟨rfl, rfl⟩
     simp [countEv, countEv_append, hset])
  by_cases hv2 : (validate_joint_position (bumpJoint5 s0.actual_q) s0.actual_q
      MAX_JOINT_MOVEMENT).1 = false <;> simp only [hv2, if_true, if_false] at h
  all_goals try
    (rcases h with ⟨rfl, rfl⟩
     simp [countEv, countEv_append, hset])
  rcases hsp : env.sleepPreMoveR with _ | e <;> simp only [hsp] at h
  all_goals try
    (rcases h with ⟨rfl, rfl⟩
     simp [countEv, countEv_append, hset])
  rcases hm1 : doMove env 0 1 (bumpJoint5 s0.actual_q) with _ | ⟨mx, mtr, b2⟩ <;>
    simp only [hm1] at h
  all_goals try (cases h)
  have hm1c := doMove_no_cleanup env 0 1 (bumpJoint5 s0.actual_q) mx mtr b2 hm1
  rcases mx with _ | _ | e
  all_goals try
    (rcases h with ⟨rfl, rfl⟩
     simp [countEv, countEv_append, hset, hm1c])
  rcases hsb : env.sleepBetweenR with _ | e <;> simp only [hsb] at h
  all_goals try
    (rcases h with ⟨rfl, rfl⟩
     simp [countEv, countEv_append, hset, hm1c])
  rcases hm2 : doMove env 1 b2 s0.actual_q with _ | ⟨mx2, mtr2, b3⟩ <;>
    simp only [hm2] at h
  all_goals try (cases h)
  have hm2c := doMove_no_cleanup env 1 b2 s0.actual_q mx2 mtr2 b3 hm2
  rcases mx2 with _ | _ | e
  all_goals
    (rcases h with ⟨rfl, rfl⟩
     simp [countEv, countEv_append, hset, hm1c, hm2c])

theorem teardown_cleanup_once (env : Env) :
    countEv .cleanupEv (teardown env) = 1 := by
  unfold teardown
  rcases env.pauseR with _ | e
  · rcases env.tdDisconnectR with _ | e2 <;> simp [countEv]
  · simp [countEv]

theorem teardown_no_send (env : Env) : sends (teardown env) = [] := by
  unfold teardown
  rcases env.pauseR with _ | e
  · rcases env.tdDisconnectR with _ | e2 <;> simp [sends]
  · simp [sends]

/-- C1 counterexample: when the user cancels at the confirmation step
the function returns before the `try`/`finally` is ever entered, so no
teardown (no pause, no disconnect) runs at all — contradicting the
claim that teardown runs exactly once on every invocation including
user cancellation. -/
theorem C1_counterexample :
    run_safe_robot_test envCancelled = some (.cancelled, []) ∧
    countEv .cleanupEv [] = 0 := by
  constructor
  · decide
  · decide

/-- C1 (amended): on every invocation that passes the confirmation
prompt and returns, the teardown block runs exactly once — whatever
terminated the body (configuration exhaustion, start failure, missing
telemetry, validation failure, movement timeout, an exception, or
Ctrl+C) — and no exception propagates out of the run (teardown itself
swallows pause/disconnect failures by construction of the bare
`except`); on the cancellation path, by contrast, no teardown runs. -/
theorem C1_teardown_once (env : Env) (r : String) (o : RunOutcome)
    (tr : List Ev) (hr : env.response = .ok r)
    (hy : pyUpper r = confirmWord)
    (hrun : run_safe_robot_test env = some (o, tr)) :
    countEv .cleanupEv tr = 1 ∧ ∀ e, o ≠ .promptRaised e := by
  unfold run_safe_robot_test at hrun
  simp only [hr] at hrun
  rw [if_pos hy] at hrun
  rcases htb : tryBody env with _ | ⟨bx, t0⟩ <;> rw [htb] at hrun
  · cases hrun
  · have h0 := tryBody_no_cleanup env bx t0 htb
    have h1 := teardown_cleanup_once env
    rcases hrun with ⟨rfl, rfl⟩
    refine ⟨by simp [countEv_append, h0, h1], ?_⟩
    intro e h
    rcases bx with o2 | e2
    · cases h
    · cases e2 <;> cases h

/-- Witness for C1 at a run that exhausts the configuration retries. -/
theorem C1_teardown_once_witness :
    countEv .cleanupEv
      ([Ev.connectEv, .versionEv] ++ confExhaustTrace ++
        [.cleanupEv, .pauseEv, .disconnectEv]) = 1 ∧
    ∀ e, RunOutcome.normal .configExhausted ≠ .promptRaised e :=
  C1_teardown_once envAlwaysConflict confirmWord
    (.normal .configExhausted)
    ([Ev.connectEv, .versionEv] ++ confExhaustTrace ++
      [.cleanupEv, .pauseEv, .disconnectEv])
    rfl (by decide) (by decide)

theorem setupGo_clean (env : Env) (ho : env.outSetupR 0 = none)
    (hi : env.inSetupR 0 = none) :
    setupGo env 3 0 = (.done, [.outSetupEv, .inSetupEv]) := by
  conv_lhs => rw [setupGo]
  simp only [setupAttempt, ho, hi]

theorem tryBody_firstSteps (env : Env) (s0 : Sample)
    (hc : env.connectR 0 = none) (hv : env.versionR 0 = none)
    (ho : env.outSetupR 0 = none) (hi : env.inSetupR 0 = none)
    (hs : env.startOk = .ok true) (h0 : env.recv 0 = .got s0)
    (hlen : ¬ s0.actual_q.length < 6) :
    tryBody env =
      if (validate_joint_position s0.actual_q (bumpJoint5 s0.actual_q)
          MAX_JOINT_MOVEMENT).1 = false then
        some (.ret (.validationFailed 1), preTrace)
      else if (validate_joint_position (bumpJoint5 s0.actual_q) s0.actual_q
          MAX_JOINT_MOVEMENT).1 = false then
        some (.ret (.validationFailed 2), preTrace)
      else
        match env.sleepPreMoveR with
        | some e => some (.exc e, preTrace ++ [.sleepEv 2])
        | none =>
          match doMove env 0 1 (bumpJoint5 s0.actual_q) with
          | none => none
          | some (.exc e, mtr, _) =>
            some (.exc e, preTrace ++ [.sleepEv 2] ++ mtr)
          | some (.timedOut, mtr, _) =>
            some (.ret (.moveTimeout 1), preTrace ++ [.sleepEv 2] ++ mtr)
          | some (.moved, mtr, base2) =>
            match env.sleepBetweenR with
            | some e =>
              some (.exc e, preTrace ++ [.sleepEv 2] ++ mtr ++ [.sleepEv 1])
            | none =>
              match doMove env 1 base2 s0.actual_q with
              | none => none
              | some (.exc e, mtr2, _) =>
                some (.exc e,
                  preTrace ++ [.sleepEv 2] ++ mtr ++ [.sleepEv 1] ++ mtr2)
              | some (.timedOut, mtr2, _) =>
                some (.ret (.moveTimeout 2),
                  preTrace ++ [.sleepEv 2] ++ mtr ++ [.sleepEv 1] ++ mtr2)
              | some (.moved, mtr2, _) =>
                some (.ret .success,
                  preTrace ++ [.sleepEv 2] ++ mtr ++ [.sleepEv 1] ++ mtr2) := by
  unfold tryBody
  simp only [hc, hv, setupGo_clean env ho hi, hs, h0, hlen, if_false,
    preTrace, List.cons_append, List.nil_append, List.append_assoc]

theorem validate_bump (q : List ℚ) (h : q.length = 6) :
    validate_joint_position q (bumpJoint5 q) MAX_JOINT_MOVEMENT =
      (true, .ok) ∧
    validate_joint_position (bumpJoint5 q) q MAX_JOINT_MOVEMENT =
      (true, .ok) := by
  obtain ⟨a, b, c, d, e, f, rfl⟩ :
      ∃ a b c d e f, q = [a, b, c, d, e, f] := by
    rcases q with _ | ⟨a, q⟩
    · simp at h
    rcases q with _ | ⟨b, q⟩
    · simp at h
    rcases q with _ | ⟨c, q⟩
    · simp at h
    rcases q with _ | ⟨d, q⟩
    · simp at h
    rcases q with _ | ⟨e, q⟩
    · simp at h
    rcases q with _ | ⟨f, q⟩
    · simp at h
    rcases q with _ | ⟨g, q⟩
    · exact ⟨a, b, c, d, e, f, rfl⟩
    · simp at h
  constructor <;>
    norm_num [bumpJoint5, validate_joint_position, checkJoints, rsub_eq_sub,
      radd_eq_add, rabs_eq_abs, MAX_JOINT_MOVEMENT, SMALL_MOVEMENT_OFFSET,
      Rat.mkRat_eq_div, add_sub_cancel_left, abs_of_nonneg]

theorem doMove_result (env : Env) (w base : ℕ) (target : List ℚ) (b : Bool)
    (c : ℕ) (hd : env.sendR w = none)
    (hw : wait_for_move_completion env.recv (env.waitTimes w) MOVEMENT_TIMEOUT
      base env.fuel = some (.ok b, c)) :
    doMove env w base target =
      if b then
        match env.recv (base + c) with
        | .got _ =>
          some (.moved,
            .sendEv target :: (List.replicate c .receiveEv ++ [.receiveEv]),
            base + c + 1)
        | .nothing =>
          some (.exc .attrError,
            .sendEv target :: (List.replicate c .receiveEv ++ [.receiveEv]),
            base + c + 1)
        | .raised e =>
          some (.exc e,
            .sendEv target :: (List.replicate c .receiveEv ++ [.receiveEv]),
            base + c + 1)
      else
        some (.timedOut, .sendEv target :: List.replicate c .receiveEv,
          base + c) := by
  unfold doMove
  simp only [hd, hw]
  cases b
  · simp
  · simp only [if_true]
    rcases env.recv (base + c) with s | _ | e <;> simp

/-- C4: each commanded target is validated against the immediately
preceding position — the first against the initial reference, the second
against the first target — both validations happen before any dispatch,
a validation failure aborts the run with no send call at all, and a
trace containing any send call implies both validations passed. -/
theorem C4_validation_gates_dispatch (env : Env) (r : String) (s0 : Sample)
    (hr : env.response = .ok r) (hy : pyUpper r = confirmWord)
    (hc : env.connectR 0 = none) (hv : env.versionR 0 = none)
    (ho : env.outSetupR 0 = none) (hi : env.inSetupR 0 = none)
    (hs : env.startOk = .ok true) (h0 : env.recv 0 = .got s0)
    (hlen : ¬ s0.actual_q.length < 6) :
    ((validate_joint_position s0.actual_q (bumpJoint5 s0.actual_q)
        MAX_JOINT_MOVEMENT).1 = false →
      run_safe_robot_test env =
        some (.normal (.validationFailed 1), preTrace ++ teardown env) ∧
      sends (preTrace ++ teardown env) = []) ∧
    (∀ o tr, run_safe_robot_test env = some (o, tr) → sends tr ≠ [] →
      (validate_joint_position s0.actual_q (bumpJoint5 s0.actual_q)
        MAX_JOINT_MOVEMENT).1 = true ∧
      (validate_joint_position (bumpJoint5 s0.actual_q) s0.actual_q
        MAX_JOINT_MOVEMENT).1 = true) := by
  have hpre := tryBody_firstSteps env s0 hc hv ho hi hs h0 hlen
  have hsends0 : sends (preTrace ++ teardown env) = [] := by
    rw [sends_append, teardown_no_send]
    simp [preTrace, sends]
  have hrun0 : ∀ bx t0, tryBody env = some (bx, t0) →
      run_safe_robot_test env = some (mapExit bx, t0 ++ teardown env) := by
    intro bx t0 htb
    unfold run_safe_robot_test
    simp only [hr]
    rw [if_pos hy, htb]
  constructor
  · intro hv1
    have htb : tryBody env = some (.ret (.validationFailed 1), preTrace) := by
      rw [hpre, if_pos hv1]
    exact ⟨hrun0 _ _ htb, hsends0⟩
  · intro o tr hrun2 hsend
    by_cases hv1 : (validate_joint_position s0.actual_q (bumpJoint5 s0.actual_q)
        MAX_JOINT_MOVEMENT).1 = false
    · have htb : tryBody env = some (.ret (.validationFailed 1), preTrace) := by
        rw [hpre, if_pos hv1]
      rw [hrun0 _ _ htb] at hrun2
      rcases hrun2 with ⟨rfl, rfl⟩
      exact absurd hsends0 hsend
    · by_cases hv2 : (validate_joint_position (bumpJoint5 s0.actual_q)
          s0.actual_q MAX_JOINT_MOVEMENT).1 = false
      · have htb : tryBody env = some (.ret (.validationFailed 2), preTrace) := by
          rw [hpre, if_neg hv1, if_pos hv2]
        rw [hrun0 _ _ htb] at hrun2
        rcases hrun2 with ⟨rfl, rfl⟩
        exact absurd hsends0 hsend
      · exact ⟨by simpa using hv1, by simpa using hv2⟩

/-- C9 (implicit): after the completion wait reports settlement the
orchestrator performs one additional telemetry receive and reads
`actual_q` from its result with no `None` check; when that receive
yields no sample the run raises `AttributeError`, is caught by the
generic exception handler, and terminates through the teardown path —
it does not report success. -/
theorem C9_post_settlement_receive (env : Env) (r : String) (s0 : Sample)
    (c1 : ℕ) (hr : env.response = .ok r) (hy : pyUpper r = confirmWord)
    (hc : env.connectR 0 = none) (hv : env.versionR 0 = none)
    (ho : env.outSetupR 0 = none) (hi : env.inSetupR 0 = none)
    (hs : env.startOk = .ok true) (h0 : env.recv 0 = .got s0)
    (hq6 : s0.actual_q.length = 6)
    (hsp : env.sleepPreMoveR = none) (hd0 : env.sendR 0 = none)
    (hw1 : wait_for_move_completion env.recv (env.waitTimes 0)
      MOVEMENT_TIMEOUT 1 env.fuel = some (.ok true, c1))
    (hpost : env.recv (1 + c1) = .nothing) :
    run_safe_robot_test env =
      some (.errorCaught .attrError,
        preTrace ++ [.sleepEv 2] ++
          (.sendEv (bumpJoint5 s0.actual_q) ::
            (List.replicate c1 .receiveEv ++ [.receiveEv])) ++
          teardown env) ∧
    countEv .cleanupEv (teardown env) = 1 := by
  have hval := validate_bump s0.actual_q hq6
  have hm1 := doMove_result env 0 1 (bumpJoint5 s0.actual_q) true c1 hd0 hw1
  rw [hpost] at hm1
  simp at hm1
  have htb : tryBody env =
      some (.exc .attrError,
        preTrace ++ [.sleepEv 2] ++
          (.sendEv (bumpJoint5 s0.actual_q) ::
            (List.replicate c1 .receiveEv ++ [.receiveEv]))) := by
    rw [tryBody_firstSteps env s0 hc hv ho hi hs h0 (by omega)]
    rw [if_neg (by simp [hval.1]), if_neg (by simp [hval.2])]
    simp only [hsp, hm1]
  constructor
  · unfold run_safe_robot_test
    simp only [hr]
    rw [if_pos hy, htb]
    simp [mapExit]
  · exact teardown_cleanup_once env

/-- C7 (amended): in a run from the reference `[0, -1.57, 0, -1.57, 0,
0]` where both targets validate under `maxJointDelta = 0.05` and every
telemetry request yields a sample, exactly two send calls occur in
order (outbound bumped target first, return-to-reference second), the
second is dispatched only after the first settles, and the run reports
success iff both movements settle before the movement timeout. -/
theorem C7_end_to_end (env : Env) (r : String) (smp : ℕ → Sample)
    (b1 b2 : Bool) (c1 c2 : ℕ)
    (hr : env.response = .ok r) (hy : pyUpper r = confirmWord)
    (hc : env.connectR 0 = none) (hv : env.versionR 0 = none)
    (ho : env.outSetupR 0 = none) (hi : env.inSetupR 0 = none)
    (hs : env.startOk = .ok true)
    (hrecv : ∀ k, env.recv k = .got (smp k))
    (hq : (smp 0).actual_q = refPos)
    (hsp : env.sleepPreMoveR = none) (hsb : env.sleepBetweenR = none)
    (hd0 : env.sendR 0 = none) (hd1 : env.sendR 1 = none)
    (hw1 : wait_for_move_completion env.recv (env.waitTimes 0)
      MOVEMENT_TIMEOUT 1 env.fuel = some (.ok b1, c1))
    (hw2 : wait_for_move_completion env.recv (env.waitTimes 1)
      MOVEMENT_TIMEOUT (1 + c1 + 1) env.fuel = some (.ok b2, c2)) :
    (b1 = true → b2 = true →
      run_safe_robot_test env =
        some (.normal .success,
          preTrace ++ [.sleepEv 2] ++
            (.sendEv (bumpJoint5 refPos) ::
              (List.replicate c1 .receiveEv ++ [.receiveEv])) ++
            [.sleepEv 1] ++
            (.sendEv refPos ::
              (List.replicate c2 .receiveEv ++ [.receiveEv])) ++
            teardown env) ∧
      sends (preTrace ++ [.sleepEv 2] ++
        (.sendEv (bumpJoint5 refPos) ::
          (List.replicate c1 .receiveEv ++ [.receiveEv])) ++
        [.sleepEv 1] ++
        (.sendEv refPos :: (List.replicate c2 .receiveEv ++ [.receiveEv])) ++
        teardown env) = [bumpJoint5 refPos, refPos]) ∧
    (b1 = false →
      run_safe_robot_test env =
        some (.normal (.moveTimeout 1),
          preTrace ++ [.sleepEv 2] ++
            (.sendEv (bumpJoint5 refPos) :: List.replicate c1 .receiveEv) ++
            teardown env) ∧
      sends (preTrace ++ [.sleepEv 2] ++
        (.sendEv (bumpJoint5 refPos) :: List.replicate c1 .receiveEv) ++
        teardown env) = [bumpJoint5 refPos]) ∧
    (b1 = true → b2 = false →
      run_safe_robot_test env =
        some (.normal (.moveTimeout 2),
          preTrace ++ [.sleepEv 2] ++
            (.sendEv (bumpJoint5 refPos) ::
              (List.replicate c1 .receiveEv ++ [.receiveEv])) ++
            [.sleepEv 1] ++
            (.sendEv refPos :: List.replicate c2 .receiveEv) ++
            teardown env) ∧
      sends (preTrace ++ [.sleepEv 2] ++
        (.sendEv (bumpJoint5 refPos) ::
          (List.replicate c1 .receiveEv ++ [.receiveEv])) ++
        [.sleepEv 1] ++
        (.sendEv refPos :: List.replicate c2 .receiveEv) ++
        teardown env) = [bumpJoint5 refPos, refPos]) ∧
    (∀ o tr, run_safe_robot_test env = some (o, tr) →
      (o = .normal .success ↔ b1 = true ∧ b2 = true)) := by
  have h6 : ¬ (smp 0).actual_q.length < 6 := by rw [hq]; decide
  have hpre := tryBody_firstSteps env (smp 0) hc hv ho hi hs (hrecv 0) h6
  rw [hq] at hpre
  have hval := validate_bump refPos (by decide)
  rw [if_neg (by simp [hval.1]), if_neg (by simp [hval.2])] at hpre
  simp only [hsp] at hpre
  have hrun0 : ∀ bx t0, tryBody env = some (bx, t0) →
      run_safe_robot_test env = some (mapExit bx, t0 ++ teardown env) := by
    intro bx t0 htb
    unfold run_safe_robot_test
    simp only [hr]
    rw [if_pos hy, htb]
  have hm1 := doMove_result env 0 1 (bumpJoint5 refPos) b1 c1 hd0 hw1
  have hm2 := doMove_result env 1 (1 + c1 + 1) refPos b2 c2 hd1 hw2
  cases b1
  · simp at hm1
    simp only [hm1] at hpre
    have hrunEq := hrun0 _ _ hpre
    simp only [mapExit] at hrunEq
    refine ⟨?_, ?_, ?_, ?_⟩
    · intro h
      cases h
    · intro _
      refine ⟨hrunEq, ?_⟩
      simp [sends_append, sends, sends_replicate_receive, teardown_no_send,
        preTrace]
    · intro h
      cases h
    · intro o tr hrun2
      rw [hrunEq] at hrun2
      rcases hrun2 with ⟨rfl, rfl⟩
      simp
  · rw [hrecv (1 + c1)] at hm1
    simp at hm1
    simp only [hm1, hsb] at hpre
    cases b2
    · simp at hm2
      simp only [hm2] at hpre
      have hrunEq := hrun0 _ _ hpre
      simp only [mapExit] at hrunEq
      refine ⟨?_, ?_, ?_, ?_⟩
      · intro _ h
        cases h
      · intro h
        cases h
      · intro _ _
        refine ⟨hrunEq, ?_⟩
        simp [sends_append, sends, sends_replicate_receive, teardown_no_send,
          preTrace]
      · intro o tr hrun2
        rw [hrunEq] at hrun2
        rcases hrun2 with ⟨rfl, rfl⟩
        simp
    · rw [hrecv (1 + c1 + 1 + c2)] at hm2
      simp at hm2
      simp only [hm2] at hpre
      have hrunEq := hrun0 _ _ hpre
      simp only [mapExit] at hrunEq
      refine ⟨?_, ?_, ?_, ?_⟩
      · intro _ _
        refine ⟨hrunEq, ?_⟩
        simp [sends_append, sends, sends_replicate_receive, teardown_no_send,
          preTrace]
      · intro h
        cases h
      · intro _ h
        cases h
      · intro o tr hrun2
        rw [hrunEq] at hrun2
        rcases hrun2 with ⟨rfl, rfl⟩
        simp

/-- Witness for C4: with 7-element telemetry the first validation fails
with the dimension error and the run aborts with no send at all. -/
theorem C4_validation_gates_dispatch_witness :
    run_safe_robot_test envDim7 =
      some (.normal (.validationFailed 1), preTrace ++ teardown envDim7) ∧
    sends (preTrace ++ teardown envDim7) = [] :=
  (C4_validation_gates_dispatch envDim7 confirmWord sampleLen7 rfl (by decide)
    rfl rfl rfl rfl rfl rfl (by decide)).1 (by decide)

/-- Witness for C9: the run ends in the caught `AttributeError` and
teardown still runs. -/
theorem C9_post_settlement_receive_witness :
    run_safe_robot_test envC9 =
      some (.errorCaught .attrError,
        preTrace ++ [.sleepEv 2] ++
          (.sendEv (bumpJoint5 refPos) ::
            (List.replicate 1 .receiveEv ++ [.receiveEv])) ++
          teardown envC9) ∧
    countEv .cleanupEv (teardown envC9) = 1 :=
  C9_post_settlement_receive envC9 confirmWord refSample 1 rfl (by decide)
    rfl rfl rfl rfl rfl (by decide) (by decide) rfl rfl (by decide)
    (by decide)

/-- Witness for C7: both movements settle after one poll each; the run
succeeds with the two send calls in order. -/
theorem C7_end_to_end_witness :
    run_safe_robot_test envC7 =
      some (.normal .success,
        preTrace ++ [.sleepEv 2] ++
          (.sendEv (bumpJoint5 refPos) ::
            (List.replicate 1 .receiveEv ++ [.receiveEv])) ++
          [.sleepEv 1] ++
          (.sendEv refPos :: (List.replicate 1 .receiveEv ++ [.receiveEv])) ++
          teardown envC7) ∧
    sends (preTrace ++ [.sleepEv 2] ++
      (.sendEv (bumpJoint5 refPos) ::
        (List.replicate 1 .receiveEv ++ [.receiveEv])) ++
      [.sleepEv 1] ++
      (.sendEv refPos :: (List.replicate 1 .receiveEv ++ [.receiveEv])) ++
      teardown envC7) = [bumpJoint5 refPos, refPos] :=
  (C7_end_to_end envC7 confirmWord (fun _ => refSample) true true 1 1
    rfl (by decide) rfl rfl rfl rfl rfl (fun _ => rfl) rfl
    rfl rfl rfl rfl (by decide) (by decide)).1 rfl rfl

/-- C7 counterexample: both completion waits settle before the timeout,
yet the run does not report success — the post-settlement receive after
the second movement yields no sample, so the run ends in the caught
`AttributeError` instead.  The claim's "success iff both movements
settle" therefore fails without a further condition on the
post-settlement receives. -/
theorem C7_counterexample :
    wait_for_move_completion envC7x.recv (envC7x.waitTimes 0)
      MOVEMENT_TIMEOUT 1 envC7x.fuel = some (.ok true, 1) ∧
    wait_for_move_completion envC7x.recv (envC7x.waitTimes 1)
      MOVEMENT_TIMEOUT 3 envC7x.fuel = some (.ok true, 1) ∧
    Option.map Prod.fst (run_safe_robot_test envC7x) =
      some (.errorCaught .attrError) := by
  refine ⟨by decide, by decide, by decide⟩
